import Mathlib

/-!
Verification of the episode-aggregation route of `codeblitz97/reveraki`
(`src/src/app/layout.tsx`, second embedded document: the GET handler for
`episodesData`).  The TypeScript code is shallowly embedded below:

* JS objects become Lean structures with the fields the code accesses;
  `string | null` / possibly-`undefined` values become `Option String`.
* A JS value that may be `null`/`undefined` combined with `??` becomes
  `Option` with `<|>` (first non-none wins), matching `??` semantics.
* Outbound HTTP calls (`axios.get`) are modelled by an environment record
  `Env` fixing, per request, the outcome of each distinct endpoint: either
  a parsed value (`Except.ok`) or a thrown error (`Except.error ()`).
  `Promise.all` rejects as soon as any component rejects.
* `JSON.stringify`/`JSON.parse` at the cache boundary are mutually inverse
  on the JSON-safe values the handler produces, so the cache is modelled
  as storing the JSON value itself (`Json`), together with an executable
  `jsonStr` implementing `JSON.stringify`s rendering for byte-level claims.
  A `Response` object has no own enumerable properties, so
  `JSON.stringify` renders it as the empty object.
-/

/-- JSON values, as produced by the handler (numbers occurring here are
natural numbers: episode numbers and HTTP status codes). -/
inductive Json where
  | null
  | num (n : Nat)
  | str (s : String)
  | arr (xs : List Json)
  | obj (fields : List (String × Json))

/-- Escape a character the way `JSON.stringify` does for the characters
that can occur in this development's strings. -/
def escChar (c : Char) : String :=
  if c = '\"' then "\\\"" else if c = '\\' then "\\\\" else String.singleton c

/-- Escape a string for inclusion in a JSON document. -/
def escStr (s : String) : String :=
  String.join (s.toList.map escChar)

mutual

/-- Render a JSON value to its serialized byte string, following
`JSON.stringify` (no added whitespace). -/
def jsonStr : Json → String
  | .null => "null"
  | .num n => toString n
  | .str s => "\"" ++ escStr s ++ "\""
  | .arr xs => "[" ++ jsonStrArr xs ++ "]"
  | .obj fs => "\x7b" ++ jsonStrObj fs ++ "\x7d"

/-- Comma-separated rendering of a JSON array's elements. -/
def jsonStrArr : List Json → String
  | [] => ""
  | [x] => jsonStr x
  | x :: y :: xs => jsonStr x ++ "," ++ jsonStrArr (y :: xs)

/-- Comma-separated rendering of a JSON object's fields. -/
def jsonStrObj : List (String × Json) → String
  | [] => ""
  | [(k, v)] => "\"" ++ escStr k ++ "\":" ++ jsonStr v
  | (k, v) :: f :: fs =>
      "\"" ++ escStr k ++ "\":" ++ jsonStr v ++ "," ++ jsonStrObj (f :: fs)

end

/-- The `Episode` interface of the route (canonical episode shape).
`img : string | null` and `description : string | null` become `Option`;
`rating : number | null` likewise. -/
structure Episode where
  id : String
  img : Option String
  title : String
  hasDub : Bool
  number : Nat
  rating : Option Int
  isFiller : Bool
  updatedAt : Nat
  description : Option String
deriving Repr, DecidableEq

/-- The `MetadataEpisode` interface (an entry of a provider's episode-image
bundle). All fields are non-nullable in the source interface. -/
structure MetadataEpisode where
  id : String
  description : String
  hasDub : Bool
  img : String
  isFiller : Bool
  number : Nat
  title : String
  updatedAt : Nat
  rating : Int
deriving Repr, DecidableEq

/-- The `EpisodeMetadata` interface (an entry of the episodes-metadata
service response). -/
structure EpisodeMetadata where
  number : Nat
  title : String
  fullTitle : String
  thumbnail : String
deriving Repr, DecidableEq

/-- The `EpTitle` interface of the episodes-metadata service. -/
structure EpTitle where
  english : String
  romaji : String
  native : String
deriving Repr, DecidableEq

/-- The `AnimeData` interface: per-episode metadata plus a title record. -/
structure AnimeData where
  metadatas : List EpisodeMetadata
  title : EpTitle
deriving Repr, DecidableEq

/-- The `MetadataProviderData` interface: one provider's episode-image
bundle. -/
structure MetadataProviderData where
  providerId : String
  data : List MetadataEpisode
deriving Repr, DecidableEq

/-- The title record of the untyped `information` object
(`information.title.english ?? .romaji ?? .native`); each variant may be
absent at runtime, hence `Option`. -/
structure InfoTitle where
  english : Option String
  romaji : Option String
  native : Option String
deriving Repr, DecidableEq

/-- The shape of the untyped (`any`) `information` object as the handler
accesses it: `information.coverImage` (possibly absent) and
`information.title`. -/
structure Information where
  coverImage : Option String
  title : InfoTitle
deriving Repr, DecidableEq

/-- The anonymous output shape built by `findEpisodeData`: exactly the
fields `id`, `img`, `title`, `description`, `number` (the input's
`hasDub`, `rating`, `isFiller`, `updatedAt` are dropped). The
`description` chain always ends in a synthesized string, so it is
non-nullable here. -/
structure EpisodeOut where
  id : String
  img : Option String
  title : String
  description : String
  number : Nat
deriving Repr, DecidableEq

/-- JS `String.prototype.startsWith`: the second string's characters are
an initial segment of the first string's. -/
def jsStartsWith (s : String) (pre : String) : Bool :=
  pre.toList.isPrefixOf s.toList

/-- Rendering of a possibly-undefined string inside a JS template
literal: `undefined` interpolates as the text "undefined". -/
def jsTemplateStr (o : Option String) : String :=
  o.getD "undefined"

/-- The inline ordinal computation of `findEpisodeData` (lines 166-173 and
211-218): 1, 2, 3 get English suffixes, every other number gets "th". -/
def ordinalOf (n : Nat) : String :=
  if n = 1 then "1st"
  else if n = 2 then "2nd"
  else if n = 3 then "3rd"
  else toString n ++ "th"

/-- The image-bundle selection of `findEpisodeData` (lines 136-139):
`episodeImages?.find((imageData) => imageData.providerId === 'tvdb' ||
episodeImages[0])`. The second disjunct is the truthiness of the list's
first element, i.e. of the list being non-empty. -/
def selectImageBundle (episodeImages : Option (List MetadataProviderData)) :
    Option MetadataProviderData :=
  episodeImages.bind fun l =>
    l.find? fun imageData => imageData.providerId == "tvdb" || !l.isEmpty

/-- Per-episode image lookup (lines 136-140): in the selected bundle, find
the entry with the episode's number (`episode.number === data.number`). -/
def lookupFoundImage (episodeImages : Option (List MetadataProviderData))
    (number : Nat) : Option MetadataEpisode :=
  (selectImageBundle episodeImages).bind fun b =>
    b.data.find? fun data => number == data.number

/-- Per-episode metadata lookup (lines 146-148):
`metadata.metadatas.find((meta) => meta.number === episode.number)`. -/
def lookupFoundMetadata (metadata : AnimeData) (number : Nat) :
    Option EpisodeMetadata :=
  metadata.metadatas.find? fun meta => meta.number == number

/-- The body of `findEpisodeData`'s `try` branch for one episode
(lines 132-189). In the typed embedding no step of this branch can throw,
so the function reduces to this map; the `catch` branch (lines 194-234)
is embedded separately as `findEpisodeDataCatch`. -/
def findEpisodeOne (metadata : AnimeData) (information : Information)
    (episodeImages : Option (List MetadataProviderData)) (episode : Episode) :
    EpisodeOut :=
  let foundImage := lookupFoundImage episodeImages episode.number
  let foundMetadata := lookupFoundMetadata metadata episode.number
  let img := (foundImage.map MetadataEpisode.img) <|>
    (foundMetadata.map EpisodeMetadata.thumbnail) <|>
    information.coverImage <|> episode.img
  let title :=
    if episode.title ≠ "" ∧ ¬ jsStartsWith episode.title "EP" then episode.title
    else ((foundImage.map MetadataEpisode.title) <|>
      (foundMetadata.map EpisodeMetadata.title)).getD
        ("Episode " ++ toString episode.number)
  let description :=
    (episode.description <|> (foundImage.map MetadataEpisode.description)).getD
      (ordinalOf episode.number ++ " Episode of " ++
        jsTemplateStr (information.title.english <|>
          information.title.romaji <|> information.title.native))
  { id := episode.id, img := img, title := title,
    description := description, number := episode.number }

/-- The `findEpisodeData` function (lines 125-236), `try` branch: map each
raw episode to the merged output shape. -/
def findEpisodeData (episodes : List Episode) (metadata : AnimeData)
    (information : Information)
    (episodeImages : Option (List MetadataProviderData)) : List EpisodeOut :=
  episodes.map (findEpisodeOne metadata information episodeImages)

/-- The body of `findEpisodeData`'s `catch` branch for one episode
(lines 194-233): the same merge without the image lookup. -/
def findEpisodeCatchOne (metadata : AnimeData) (information : Information)
    (episode : Episode) : EpisodeOut :=
  let foundMetadata := lookupFoundMetadata metadata episode.number
  let img := (foundMetadata.map EpisodeMetadata.thumbnail) <|>
    information.coverImage <|> episode.img
  let title :=
    if episode.title ≠ "" ∧ ¬ jsStartsWith episode.title "EP" then episode.title
    else (foundMetadata.map EpisodeMetadata.title).getD
      ("Episode " ++ toString episode.number)
  let description :=
    episode.description.getD
      (ordinalOf episode.number ++ " Episode of " ++
        jsTemplateStr (information.title.english <|>
          information.title.romaji <|> information.title.native))
  { id := episode.id, img := img, title := title,
    description := description, number := episode.number }

/-- The `catch` branch of `findEpisodeData` (lines 194-234), unreachable in
the typed embedding but kept for comparison with the `try` branch. -/
def findEpisodeDataCatch (episodes : List Episode) (metadata : AnimeData)
    (information : Information) : List EpisodeOut :=
  episodes.map (findEpisodeCatchOne metadata information)

/-- First non-null of a list of candidates, spelling out the spec phrase
"first non-null wins" (used only on the spec side of the theorems). -/
def firstSome {α : Type} : List (Option α) → Option α
  | [] => none
  | x :: xs => x <|> firstSome xs

/-- One provider entry of the anify `EpisodesResponse`
(`anifyEpisodes.episodes.data[i]`): a raw episode list plus its
`providerId`. -/
structure ProviderIn where
  episodes : List Episode
  providerId : String
deriving Repr, DecidableEq

/-- The `latest` record of the anify `EpisodesData`. -/
structure LatestInfo where
  updatedAt : Nat
  latestTitle : String
  latestEpisode : Nat
deriving Repr, DecidableEq

/-- The anify `EpisodesData` interface. -/
structure EpisodesData where
  data : List ProviderIn
  latest : LatestInfo
deriving Repr, DecidableEq

/-- The anify `EpisodesResponse` interface. -/
structure EpisodesResponse where
  episodes : EpisodesData
deriving Repr, DecidableEq

/-- Modelled from the spec: the `EpisodeConsumet` shape imported from
`@/functions/utilityFunctions`, which is not part of the excerpt - the
fallback (consumet) provider's raw episode shape (spec section 4.2,
step 3). -/
structure EpisodeConsumet where
  id : String
  title : Option String
  image : Option String
  description : Option String
  number : Nat
deriving Repr, DecidableEq

/-- Modelled from the spec: `convertToEpisode`, imported from
`@/functions/utilityFunctions` and not part of the excerpt - converts the
fallback provider's episode shape into the canonical `Episode` shape
(spec section 4.2, step 3: "converting its episode shape into the
canonical Episode shape"). -/
def convertToEpisode (e : EpisodeConsumet) : Episode :=
  { id := e.id, img := e.image, title := e.title.getD "",
    hasDub := false, number := e.number, rating := none,
    isFiller := false, updatedAt := 0, description := e.description }

/-- One bundle of the handler's output: normalized episodes plus a
provider identifier. -/
structure ProviderOut where
  episodes : List EpisodeOut
  providerId : String
deriving Repr, DecidableEq

/-- An HTTP response value as built by `NextResponse.json(body, init)`:
a status code and a JSON body. -/
structure NextResp where
  status : Nat
  body : Json

/-- The value the `fetchData` closure returns when it does not throw:
either the list of provider bundles, or - on the consumet-failure paths -
the error `NextResponse` object itself (returned as a value from inside
the closure). -/
inductive FetchVal where
  | bundles (bs : List ProviderOut)
  | response (r : NextResp)

/-- The generic error body `{ message: 'Internal Server Error',
status: 500 }`. -/
def errorBody : Json :=
  .obj [("message", .str "Internal Server Error"), ("status", .num 500)]

/-- The per-request outcome of each distinct outbound endpoint the handler
contacts. `Except.error ()` means that call throws (network failure,
timeout, non-2xx); `Except.ok` carries the parsed response body. The
environment is fixed for the request, so the `catch`-path re-fetch of the
metadata and info endpoints observes the same outcomes. -/
structure Env where
  episodeImages : Except Unit (List MetadataProviderData)
  episodesMetadata : Except Unit AnimeData
  information : Except Unit Information
  anify : Except Unit EpisodesResponse
  consumet : Except Unit (List EpisodeConsumet)

/-- The providerId renaming applied to each anify bundle (lines 283-284 and
353-354): `anifyEpisode.providerId === 'zoro' ? 'anirise' : 'anizone'`. -/
def renameProviderId (pid : String) : String :=
  if pid == "zoro" then "anirise" else "anizone"

/-- The episode-list flow shared by both attempts (lines 269-321 and
340-390): try the anify info+episodes endpoint and map its bundles; on
failure try the consumet endpoint, convert and merge its episodes under
providerId "anizone"; if that also fails, return (as a value!) the 500
`NextResponse` object. `episodeImages` is `some` on the first attempt and
`none` on the retry. -/
def episodeListFlow (env : Env) (episodeMetadata : AnimeData)
    (information : Information)
    (episodeImages : Option (List MetadataProviderData)) : FetchVal :=
  match env.anify with
  | .ok anifyEpisodes =>
      .bundles (anifyEpisodes.episodes.data.map fun anifyEpisode =>
        { episodes := findEpisodeData anifyEpisode.episodes episodeMetadata
            information episodeImages,
          providerId := renameProviderId anifyEpisode.providerId })
  | .error _ =>
      match env.consumet with
      | .ok consumetEpisodes =>
          let convertedEpisodes := consumetEpisodes.map convertToEpisode
          let eps := findEpisodeData convertedEpisodes episodeMetadata
            information episodeImages
          .bundles [{ episodes := eps, providerId := "anizone" }]
      | .error _ => .response { status := 500, body := errorBody }

/-- The `fetchData` closure passed to `getOrSetCache` (lines 241-392).
First attempt: `Promise.all` of the three auxiliary fetches (it rejects
if any rejects), then the episode-list flow with the image source. On
rejection, the `catch` block re-fetches metadata and info only; if either
throws again the exception propagates out of the closure
(`Except.error ()`), otherwise the episode-list flow runs without the
image source. -/
def fetchDataModel (env : Env) : Except Unit FetchVal :=
  match env.episodeImages, env.episodesMetadata, env.information with
  | .ok episodeImages, .ok episodeMetadata, .ok information =>
      .ok (episodeListFlow env episodeMetadata information (some episodeImages))
  | _, _, _ =>
      match env.episodesMetadata, env.information with
      | .ok episodeMetadata, .ok information =>
          .ok (episodeListFlow env episodeMetadata information none)
      | _, _ => .error ()

/-- JSON serialization of one normalized episode object. -/
def episodeOutJson (e : EpisodeOut) : Json :=
  .obj [("id", .str e.id),
    ("img", (e.img.map Json.str).getD .null),
    ("title", .str e.title),
    ("description", .str e.description),
    ("number", .num e.number)]

/-- JSON serialization of one provider bundle. -/
def providerOutJson (p : ProviderOut) : Json :=
  .obj [("episodes", .arr (p.episodes.map episodeOutJson)),
    ("providerId", .str p.providerId)]

/-- What `JSON.stringify` sees in a `fetchData` return value: the bundle
list serializes structurally; a `Response` object has no own enumerable
properties and serializes as the empty object. -/
def fetchValJson : FetchVal → Json
  | .bundles bs => .arr (bs.map providerOutJson)
  | .response _ => .obj []

/-- The TTL passed to `cache.set` (line 120): `5 * 60 * 60` seconds. -/
def cacheTtl : Nat := 5 * 60 * 60

/-- Modelled from the spec: the `cache` facade from `@/functions/cache`,
which is not part of the excerpt - a key-value store with provider-managed
TTL expiry (spec section 4.1; an entry being present means it has not yet
expired). The state for the one key this route uses: the stored JSON
value (the string stored is its `jsonStr` rendering, never empty, hence
always truthy on read) together with the TTL it was set with. -/
structure CacheState where
  entry : Option (Json × Nat)

/-- The `getOrSetCache` helper (lines 110-123), evaluated against a cache
state and the outcome of the `fetchData` closure. Returns the
`JSON.parse`d cached value on a hit, otherwise runs `fetchData`, stores
its serialized value with the TTL and returns it; the second component
records whether `fetchData` was invoked. On a miss the value returned to
the caller is `freshData` itself; since `GET` immediately re-serializes
it via `NextResponse.json`, it is represented here by its JSON value. -/
def getOrSetCacheModel (st : CacheState) (fetch : Except Unit FetchVal) :
    Except Unit (Json × CacheState) × Bool :=
  match st.entry with
  | some (j, _) => (.ok (j, st), false)
  | none =>
      match fetch with
      | .ok freshData =>
          (.ok (fetchValJson freshData,
            { entry := some (fetchValJson freshData, cacheTtl) }), true)
      | .error e => (.error e, true)

/-- The `GET` handler (lines 238-405): look up or compute the episodes
value, answer `NextResponse.json(cachedEpisodes)` (status 200) with it;
if anything in the `try` block throws, answer the generic 500. Returns
the response, the cache state after the request, and whether the
`fetchData` closure was invoked. -/
def GETmodel (env : Env) (st : CacheState) : NextResp × CacheState × Bool :=
  match getOrSetCacheModel st (fetchDataModel env) with
  | (.ok (cachedEpisodes, st'), invoked) =>
      ({ status := 200, body := cachedEpisodes }, st', invoked)
  | (.error _, invoked) => ({ status := 500, body := errorBody }, st, invoked)

/-- Episodes-metadata value with no per-episode records (the "no metadata"
setting of the spec's title-resolution example). -/
def emptyAnimeData : AnimeData :=
  { metadatas := [], title := { english := "", romaji := "", native := "" } }

/-- An `information` object carrying no cover image and no title variant. -/
def emptyInformation : Information :=
  { coverImage := none,
    title := { english := none, romaji := none, native := none } }

/-- An `information` object whose English title is "Mono". -/
def infoMono : Information :=
  { coverImage := none,
    title := { english := some "Mono", romaji := none, native := none } }

/-- Request environment in which the three auxiliary fetches succeed (with
empty data) while both the primary (anify) and the fallback (consumet)
episode calls throw. -/
def envBothFail : Env :=
  { episodeImages := .ok [], episodesMetadata := .ok emptyAnimeData,
    information := .ok emptyInformation, anify := .error (),
    consumet := .error () }

/-- A raw episode whose title is the placeholder "EP1". -/
def epRawEP1 : Episode :=
  { id := "e1", img := none, title := "EP1", hasDub := false, number := 1,
    rating := none, isFiller := false, updatedAt := 0, description := none }

/-- An image-source list whose only bundle (providerId "anify", not "tvdb")
titles episode 1 "Premiere". -/
def premiereImages : List MetadataProviderData :=
  [{ providerId := "anify",
     data := [{ id := "m1", description := "d", hasDub := false,
                img := "img.png", isFiller := false, number := 1,
                title := "Premiere", updatedAt := 0, rating := 0 }] }]

/-- A raw episode with empty title and no own image or description. -/
def plainEpisode (n : Nat) : Episode :=
  { id := "e", img := none, title := "", hasDub := false, number := n,
    rating := none, isFiller := false, updatedAt := 0, description := none }

/-- The alternative combinator on `Option` drops a trailing `none`
(JS `x ?? undefined` is `x`). -/
theorem opt_orElse_none {α : Type} (o : Option α) : (o <|> none) = o := by
  cases o <;> rfl

/-- With no image source passed, the per-episode image lookup finds
nothing. -/
theorem lookupFoundImage_none (n : Nat) : lookupFoundImage none n = none := rfl

/-- C9: for every non-empty `episodeImages` list the image lookup selects
the first provider bundle, whatever its `providerId` is - the `'tvdb'`
check never restricts the selection because the predicate's second
disjunct (`episodeImages[0]`) is truthy for non-empty input - and only
for an empty list does the lookup yield no image source. Both cases are
the single equation: the selected bundle is the list's head. -/
theorem selectImageBundle_eq_head (episodeImages : List MetadataProviderData) :
    selectImageBundle (some episodeImages) = episodeImages.head? := by
  cases episodeImages with
  | nil => rfl
  | cons x xs =>
      have hx : (x.providerId == "tvdb" || !(x :: xs).isEmpty) = true := by
        simp
      simp [selectImageBundle, List.find?, hx]

/-- Pushing `some` through a two-candidate `??` chain closed by a default:
the default becomes the final (always-present) candidate. -/
theorem opt_getD_somechain {α : Type} (x y : Option α) (d : α) :
    some ((x <|> y).getD d) = (x <|> (y <|> some d)) := by
  cases x <;> cases y <;> rfl

/-- Pushing `some` through a one-candidate `??` chain closed by a
default. -/
theorem opt_getD_some {α : Type} (x : Option α) (d : α) :
    some (x.getD d) = (x <|> some d) := by
  cases x <;> rfl

/-- `opt_getD_somechain` under the title conditional. -/
theorem some_ite_getD {α : Type} {c : Prop} [Decidable c] (t : α)
    (x y : Option α) (d : α) :
    some (if c then t else (x <|> y).getD d) =
      (if c then some t else (x <|> (y <|> some d))) := by
  split
  · rfl
  · exact opt_getD_somechain x y d

/-- `opt_getD_some` under the title conditional. -/
theorem some_ite_getD1 {α : Type} {c : Prop} [Decidable c] (t : α)
    (x : Option α) (d : α) :
    some (if c then t else x.getD d) =
      (if c then some t else (x <|> some d)) := by
  split
  · rfl
  · exact opt_getD_some x d

/-- C4: for every raw episode processed by `findEpisodeData`, the
resulting `img` field is the first non-null of: the per-provider image
match's `img`, the metadata thumbnail, the general info cover image, and
the raw episode's `img`. -/
theorem C4_img_first_non_null (eps : List Episode) (md : AnimeData)
    (info : Information) (imgs : Option (List MetadataProviderData)) :
    (findEpisodeData eps md info imgs).map EpisodeOut.img =
      eps.map (fun e => firstSome
        [(lookupFoundImage imgs e.number).map MetadataEpisode.img,
         (lookupFoundMetadata md e.number).map EpisodeMetadata.thumbnail,
         info.coverImage, e.img]) := by
  unfold findEpisodeData
  rw [List.map_map]
  refine List.map_congr_left fun e he => ?_
  simp [Function.comp, findEpisodeOne, firstSome, opt_orElse_none]

/-- C5: `findEpisodeData` resolves the title as the raw title when it is
non-empty and not an "EP"-placeholder, otherwise as the first non-null of
the image-source title, the metadata title, and the synthesized
"Episode N"; in particular raw title "EP1" with image-source title
"Premiere" and no metadata yields "Premiere", while raw title
"The Beginning" is kept regardless of the other sources. -/
theorem C5_title_resolution :
    (∀ (eps : List Episode) (md : AnimeData) (info : Information)
        (imgs : Option (List MetadataProviderData)),
      (findEpisodeData eps md info imgs).map (fun o => some o.title) =
        eps.map (fun e =>
          if e.title ≠ "" ∧ ¬ jsStartsWith e.title "EP" then some e.title
          else firstSome
            [(lookupFoundImage imgs e.number).map MetadataEpisode.title,
             (lookupFoundMetadata md e.number).map EpisodeMetadata.title,
             some ("Episode " ++ toString e.number)])) ∧
    (findEpisodeData [epRawEP1] emptyAnimeData emptyInformation
        (some premiereImages)).map EpisodeOut.title = ["Premiere"] ∧
    (∀ (md : AnimeData) (info : Information)
        (imgs : Option (List MetadataProviderData)) (i : String)
        (im : Option String) (hd : Bool) (n : Nat) (r : Option Int)
        (fl : Bool) (u : Nat) (d : Option String),
      (findEpisodeData
          [{ id := i, img := im, title := "The Beginning", hasDub := hd,
             number := n, rating := r, isFiller := fl, updatedAt := u,
             description := d }] md info imgs).map EpisodeOut.title =
        ["The Beginning"]) := by
  refine ⟨fun eps md info imgs => ?_, by decide,
    fun md info imgs i im hd n r fl u d => ?_⟩
  · unfold findEpisodeData
    rw [List.map_map]
    refine List.map_congr_left fun e he => ?_
    simp [Function.comp, findEpisodeOne, firstSome, opt_orElse_none,
      some_ite_getD]
  · have hsw : jsStartsWith "The Beginning" "EP" = false := by decide
    simp [findEpisodeData, findEpisodeOne, hsw]

/-- C6: `findEpisodeData` resolves the description as the first non-null
of the raw episode description, the image-source description, and a
synthesized ordinal sentence built from the first non-null of the
English, Romaji, and Native anime titles. -/
theorem C6_description_first_non_null (eps : List Episode) (md : AnimeData)
    (info : Information) (imgs : Option (List MetadataProviderData)) :
    (findEpisodeData eps md info imgs).map (fun o => some o.description) =
      eps.map (fun e => firstSome
        [e.description,
         (lookupFoundImage imgs e.number).map MetadataEpisode.description,
         some (ordinalOf e.number ++ " Episode of " ++
           jsTemplateStr (firstSome
             [info.title.english, info.title.romaji, info.title.native]))]) := by
  unfold findEpisodeData
  rw [List.map_map]
  refine List.map_congr_left fun e he => ?_
  simp [Function.comp, findEpisodeOne, firstSome, opt_orElse_none,
    opt_getD_somechain]

/-- C7: the synthesized description's ordinal is "1st" for episode 1,
"2nd" for 2, "3rd" for 3, and "11th" for 11, each followed by
" Episode of " and the anime title. -/
theorem C7_ordinals :
    ordinalOf 1 = "1st" ∧ ordinalOf 2 = "2nd" ∧ ordinalOf 3 = "3rd" ∧
    ordinalOf 11 = "11th" ∧
    (findEpisodeData
        [plainEpisode 1, plainEpisode 2, plainEpisode 3, plainEpisode 11]
        emptyAnimeData infoMono none).map EpisodeOut.description =
      ["1st Episode of Mono", "2nd Episode of Mono", "3rd Episode of Mono",
       "11th Episode of Mono"] := by
  refine ⟨rfl, rfl, rfl, by decide, by decide⟩

/-- C10: `findEpisodeData` returns a list of the same length and order in
which the i-th output carries the i-th input's `id` and `number`
unchanged; the output record type `EpisodeOut` has exactly the fields
`id`, `img`, `title`, `description`, `number`, so the input's `hasDub`,
`rating`, `isFiller` and `updatedAt` fields are dropped. -/
theorem C10_shape_preserved (eps : List Episode) (md : AnimeData)
    (info : Information) (imgs : Option (List MetadataProviderData)) :
    (findEpisodeData eps md info imgs).length = eps.length ∧
    ∀ i : Nat,
      ((findEpisodeData eps md info imgs)[i]?).map EpisodeOut.id =
        (eps[i]?).map Episode.id ∧
      ((findEpisodeData eps md info imgs)[i]?).map EpisodeOut.number =
        (eps[i]?).map Episode.number := by
  refine ⟨by simp [findEpisodeData], fun i => ⟨?_, ?_⟩⟩ <;>
    simp [findEpisodeData, List.getElem?_map] <;>
    cases eps[i]? <;> simp [findEpisodeOne]

/-- C8: when the initial parallel auxiliary fetches throw (here: the
episode-images fetch fails while the re-fetched metadata and info
endpoints answer), the handler retries the whole episode-list flow
without the image source - on both the primary path and the consumet
fallback path `findEpisodeData` runs with no `episodeImages` - and the
episode fields are then resolved by the same precedence chains minus the
image lookup: img as metadata thumbnail, then cover image, then raw img;
title as raw non-placeholder, then metadata title, then "Episode N";
description as raw, then the synthesized ordinal sentence. -/
theorem C8_retry_without_images (md : AnimeData) (info : Information)
    (resp : EpisodesResponse) (ces : List EpisodeConsumet)
    (cons : Except Unit (List EpisodeConsumet)) (eps : List Episode) :
    fetchDataModel
        { episodeImages := .error (), episodesMetadata := .ok md,
          information := .ok info, anify := .ok resp, consumet := cons } =
      .ok (.bundles (resp.episodes.data.map fun anifyEpisode =>
        { episodes := findEpisodeData anifyEpisode.episodes md info none,
          providerId := renameProviderId anifyEpisode.providerId })) ∧
    fetchDataModel
        { episodeImages := .error (), episodesMetadata := .ok md,
          information := .ok info, anify := .error (), consumet := .ok ces } =
      .ok (.bundles
        [⟨findEpisodeData (ces.map convertToEpisode) md info none,
          "anizone"⟩]) ∧
    (findEpisodeData eps md info none).map EpisodeOut.img =
      eps.map (fun e => firstSome
        [(lookupFoundMetadata md e.number).map EpisodeMetadata.thumbnail,
         info.coverImage, e.img]) ∧
    (findEpisodeData eps md info none).map (fun o => some o.title) =
      eps.map (fun e =>
        if e.title ≠ "" ∧ ¬ jsStartsWith e.title "EP" then some e.title
        else firstSome
          [(lookupFoundMetadata md e.number).map EpisodeMetadata.title,
           some ("Episode " ++ toString e.number)]) ∧
    (findEpisodeData eps md info none).map (fun o => some o.description) =
      eps.map (fun e => firstSome
        [e.description,
         some (ordinalOf e.number ++ " Episode of " ++
           jsTemplateStr (firstSome
             [info.title.english, info.title.romaji, info.title.native]))]) := by
  refine ⟨rfl, rfl, ?_, ?_, ?_⟩ <;>
    ·  unfold findEpisodeData
       rw [List.map_map]
       refine List.map_congr_left fun e he => ?_
       simp [Function.comp, findEpisodeOne, lookupFoundImage_none, firstSome,
         opt_orElse_none, opt_getD_somechain, opt_getD_some, some_ite_getD,
         some_ite_getD1]

/-- C2: when the primary (anify) call throws and the fallback (consumet)
call succeeds, the `fetchData` closure returns a single provider bundle
whose episodes are the fallback provider's episodes converted to the
canonical `Episode` shape (and merged by `findEpisodeData` like every
other path) and whose providerId is "anizone"; on an empty cache the
handler responds 200 with exactly that bundle's JSON. -/
theorem C2_fallback_bundle_anizone (imgs : List MetadataProviderData)
    (md : AnimeData) (info : Information) (ces : List EpisodeConsumet) :
    fetchDataModel
        { episodeImages := .ok imgs, episodesMetadata := .ok md,
          information := .ok info, anify := .error (), consumet := .ok ces } =
      .ok (.bundles
        [⟨findEpisodeData (ces.map convertToEpisode) md info (some imgs),
          "anizone"⟩]) ∧
    (GETmodel
        { episodeImages := .ok imgs, episodesMetadata := .ok md,
          information := .ok info, anify := .error (), consumet := .ok ces }
        { entry := none }).1 =
      { status := 200,
        body := .arr [providerOutJson
          ⟨findEpisodeData (ces.map convertToEpisode) md info (some imgs),
           "anizone"⟩] } :=
  ⟨rfl, rfl⟩

/-- C1 (code behavior at the claim's failing input): when both the
primary and the fallback provider calls throw while the auxiliary
fetches succeed, the `fetchData` closure returns - as a data value - the
500 `NextResponse` it builds, and the `GET` handler, re-wrapping that
value with `NextResponse.json`, answers HTTP 200 whose body is the empty
JSON object (the serialization of a `Response` object), not the claimed
HTTP 500 with the generic message body. -/
theorem C1_both_fail_responds_200_empty_object :
    fetchDataModel envBothFail =
      .ok (.response { status := 500, body := errorBody }) ∧
    (GETmodel envBothFail { entry := none }).1 =
      { status := 200, body := .obj [] } ∧
    jsonStr (GETmodel envBothFail { entry := none }).1.body = "\x7b\x7d" :=
  ⟨rfl, rfl, rfl⟩

/-- C3: on a request whose cache key holds an (unexpired) entry written by
a first request, the second request's JSON response is byte-identical to
the first one's and the `fetchData` closure is not invoked. -/
theorem C3_cached_hit_identical_no_fetch (env : Env) (st : CacheState)
    (h0 : st.entry = none)
    (h1 : ((GETmodel env st).2.1).entry.isSome = true) :
    jsonStr ((GETmodel env ((GETmodel env st).2.1)).1).body =
      jsonStr ((GETmodel env st).1).body ∧
    (GETmodel env ((GETmodel env st).2.1)).2.2 = false := by
  cases hf : fetchDataModel env with
  | error e => simp [GETmodel, getOrSetCacheModel, h0, hf] at h1
  | ok v => simp [GETmodel, getOrSetCacheModel, h0, hf]

/-- C3 witness: the cached-hit theorem applied to a concrete environment
and the empty cache state. -/
theorem C3_cached_hit_witness :
    ((⟨none⟩ : CacheState).entry = none) ∧
    ((GETmodel envBothFail ⟨none⟩).2.1).entry.isSome = true ∧
    (jsonStr ((GETmodel envBothFail
        ((GETmodel envBothFail ⟨none⟩).2.1)).1).body =
      jsonStr ((GETmodel envBothFail ⟨none⟩).1).body ∧
    (GETmodel envBothFail ((GETmodel envBothFail ⟨none⟩).2.1)).2.2 = false) :=
  ⟨rfl, rfl, C3_cached_hit_identical_no_fetch envBothFail ⟨none⟩ rfl rfl⟩
